import Mathlib

/-!
Verification of the multi-source football match aggregation pipeline
(repository `projetoswmfa/football-api`).

The development shallowly embeds the aggregation core:
`UnifiedRealScraper._remove_duplicates`, `UnifiedRealScraper.validate_real_data`,
`UnifiedRealScraper._is_simulation`, `UnifiedRealScraper._safe_scraper_call` and
`UnifiedRealScraper.get_all_live_matches_real`
(src/scrapers/unified_real_scraper.py), together with the provider payload
parsers `ESPNScraper._parse_live_soccer_match` (src/scrapers/espn_real.py) and
`FootballDataScraper._parse_live_match` (src/scrapers/football_data_real.py).

Python match records are dictionaries with optional keys.  String-valued keys
that the aggregation core reads through `dict.get(key, '')` or by truthiness
are modelled as `String` fields whose default `""` stands for an absent key
(both an absent key and an empty value are falsy and produce `''` under
`.get(key, '')`, so the two are indistinguishable to the embedded code).
Integer-valued keys that may be absent are modelled as `Option Int`.
-/

namespace FootballApi

/-- A match record as passed between the scrapers and the unified pipeline:
a Python dict.  Fields not read by any embedded operation
(`home_team_id`, `away_team_id`, odds, the dedup/validation metadata the code
writes back into the dict, ...) are omitted.  `home_score`/`away_score` are
`Option Int`: `none` models an absent score value. -/
structure MatchRecord where
  match_id : String := ""
  home_team : String := ""
  away_team : String := ""
  home_score : Option Int := none
  away_score : Option Int := none
  minute : Option Int := none
  status : String := ""
  competition : String := ""
  start_time : String := ""
  is_live : Bool := false
  scraped_at : String := ""
  source : String := ""
  data_quality : String := ""
  deriving DecidableEq, Repr

/-- Python `str.lower()`: character-wise lower-casing (ASCII case mapping;
no team name handled in this development needs the non-ASCII cases). -/
def pyLower (s : String) : String :=
  ⟨s.data.map Char.toLower⟩

/-- Python `str.strip()`: drop leading and trailing whitespace. -/
def pyStrip (s : String) : String :=
  ⟨((s.data.dropWhile Char.isWhitespace).reverse.dropWhile Char.isWhitespace).reverse⟩

/-- Python slicing `s[:n]`: the first `n` characters. -/
def pySlice (n : Nat) (s : String) : String :=
  ⟨s.data.take n⟩

/-- The deduplication key of `UnifiedRealScraper._remove_duplicates`
(src/scrapers/unified_real_scraper.py:236-243):
`home = match.get('home_team', '').lower().strip()`,
`away = match.get('away_team', '').lower().strip()`,
`key = f"{home}_{away}_{start_time[:10]}"`. -/
def dedupKey (m : MatchRecord) : String :=
  pyStrip (pyLower m.home_team) ++ "_" ++ pyStrip (pyLower m.away_team) ++ "_"
    ++ pySlice 10 m.start_time

/-- The loop of `UnifiedRealScraper._remove_duplicates`
(src/scrapers/unified_real_scraper.py:233-252): walk the input in order,
keep a record iff its key has not been seen, and remember the key.
`seen` models the Python `set()` (only membership is used, so a list of the
keys added so far is a faithful model). -/
def removeDuplicatesAux : List MatchRecord → List String → List MatchRecord
  | [], _ => []
  | m :: ms, seen =>
    if dedupKey m ∈ seen then
      removeDuplicatesAux ms seen
    else
      m :: removeDuplicatesAux ms (dedupKey m :: seen)

/-- `UnifiedRealScraper._remove_duplicates`
(src/scrapers/unified_real_scraper.py:231-254).  The Python code also writes
`unified_key`/`is_deduplicated` metadata into each surviving dict; those keys
are never read by the embedded operations and are omitted from the model. -/
def remove_duplicates (ms : List MatchRecord) : List MatchRecord :=
  removeDuplicatesAux ms []

/-- `suspicious_indicators` of `UnifiedRealScraper._is_simulation`
(src/scrapers/unified_real_scraper.py:303-311). -/
def suspicious_indicators : List String :=
  ["test", "fake", "demo", "example", "sample", "mock", "dummy"]

/-- `needle` is an initial segment of `hay` (on character lists). -/
def charsStartWith : List Char → List Char → Bool
  | [], _ => true
  | _ :: _, [] => false
  | a :: as, b :: bs => a == b && charsStartWith as bs

/-- `needle` occurs contiguously somewhere in `hay` (on character lists). -/
def charsContain : List Char → List Char → Bool
  | needle, [] => charsStartWith needle []
  | needle, b :: bs => charsStartWith needle (b :: bs) || charsContain needle bs

/-- Python substring containment `needle in hay` on strings. -/
def containsSub (needle hay : String) : Bool :=
  charsContain needle.data hay.data

/-- `UnifiedRealScraper._is_simulation`
(src/scrapers/unified_real_scraper.py:301-326): an indicator occurring as a
substring of either lower-cased team name, or `'simulate'`/`'fake'` occurring
in the lower-cased source, marks the record as simulated. -/
def is_simulation (m : MatchRecord) : Bool :=
  let home := pyLower m.home_team
  let away := pyLower m.away_team
  suspicious_indicators.any (fun ind => containsSub ind home || containsSub ind away)
    || (let src := pyLower m.source
        containsSub "simulate" src || containsSub "fake" src)

/-- The team-name denylist clause of `_is_simulation`: some indicator occurs
as a substring of a lower-cased team name
(src/scrapers/unified_real_scraper.py:313-319). -/
def containsDenyToken (m : MatchRecord) : Bool :=
  suspicious_indicators.any (fun ind =>
    containsSub ind (pyLower m.home_team) || containsSub ind (pyLower m.away_team))

/-- The quality score accumulated by `UnifiedRealScraper.validate_real_data`
(src/scrapers/unified_real_scraper.py:266-284): one point each for
truthy `home_team` and `away_team`, truthy `scraped_at`, truthy `source`,
and `not _is_simulation(match)`. -/
def quality_score (m : MatchRecord) : Nat :=
  (if m.home_team ≠ "" ∧ m.away_team ≠ "" then 1 else 0)
    + (if m.scraped_at ≠ "" then 1 else 0)
    + (if m.source ≠ "" then 1 else 0)
    + (if is_simulation m then 0 else 1)

/-- The `validation_stats` dictionary of
`UnifiedRealScraper.validate_real_data`
(src/scrapers/unified_real_scraper.py:259-264). -/
structure ValidationStats where
  total : Nat
  real : Nat
  suspicious : Nat
  invalid : Nat
  deriving DecidableEq, Repr

/-- One iteration of the loop of `UnifiedRealScraper.validate_real_data`
(src/scrapers/unified_real_scraper.py:266-295): a record with score `>= 4` is
appended to `validated` and counted as `real`; otherwise with score `>= 2` it
is counted as `suspicious`, else as `invalid` — in both of those cases the
record itself is dropped.  (The code also writes `validation_score` /
`is_validated_real` metadata into accepted dicts; those keys are never read by
the embedded operations and are omitted.) -/
def validateStep (acc : List MatchRecord × ValidationStats) (m : MatchRecord) :
    List MatchRecord × ValidationStats :=
  if 4 ≤ quality_score m then
    (acc.1 ++ [m], { acc.2 with real := acc.2.real + 1 })
  else if 2 ≤ quality_score m then
    (acc.1, { acc.2 with suspicious := acc.2.suspicious + 1 })
  else
    (acc.1, { acc.2 with invalid := acc.2.invalid + 1 })

/-- `UnifiedRealScraper.validate_real_data`
(src/scrapers/unified_real_scraper.py:256-299): `total` is set to the input
length up front, then the loop classifies each record in input order. -/
def validate_real_data (ms : List MatchRecord) : List MatchRecord × ValidationStats :=
  ms.foldl validateStep ([], ⟨ms.length, 0, 0, 0⟩)

/-- Acceptance predicate of the validator: a record enters the `validated`
list iff its quality score reaches 4
(src/scrapers/unified_real_scraper.py:287-291). -/
def isAccepted (m : MatchRecord) : Bool :=
  4 ≤ quality_score m

/-- A record counted as `suspicious` by the validator: score in `[2, 3]`
(src/scrapers/unified_real_scraper.py:292-293). -/
def isSuspicious (m : MatchRecord) : Bool :=
  !(4 ≤ quality_score m : Bool) && (2 ≤ quality_score m : Bool)

/-- A record counted as `invalid` by the validator: score below 2
(src/scrapers/unified_real_scraper.py:294-295). -/
def isInvalid (m : MatchRecord) : Bool :=
  quality_score m < 2

/-- Outcome of one source client's fetch, as observed by
`UnifiedRealScraper._safe_scraper_call`
(src/scrapers/unified_real_scraper.py:167-187): a list result, a 15-second
timeout (`asyncio.TimeoutError`), a raised exception, or a value that is not
a list. -/
inductive FetchOutcome where
  | ok (ms : List MatchRecord)
  | timeout
  | raised (msg : String)
  | nonList
  deriving DecidableEq, Repr

/-- `UnifiedRealScraper._safe_scraper_call`
(src/scrapers/unified_real_scraper.py:167-187): a list result is passed
through; a timeout, a raised exception and a non-list result all become `[]`.
The function is total: no outcome propagates to the caller. -/
def safe_scraper_call : FetchOutcome → List MatchRecord
  | .ok ms => ms
  | .timeout => []
  | .raised _ => []
  | .nonList => []

/-- `UnifiedRealScraper.get_all_live_matches_real`
(src/scrapers/unified_real_scraper.py:64-110): the four sources ESPN,
Football-Data, API-Football and LiveScore are queried concurrently through
`_safe_scraper_call`, their list results are concatenated in that fixed order
(`asyncio.gather` preserves task order), and `_remove_duplicates` is applied.
Each argument is the outcome of the corresponding source's fetch. -/
def get_all_live_matches_real (espn footballData apiFootball liveScore : FetchOutcome) :
    List MatchRecord :=
  remove_duplicates
    (safe_scraper_call espn ++ safe_scraper_call footballData
      ++ safe_scraper_call apiFootball ++ safe_scraper_call liveScore)

/-- First record of `l` whose deduplication key is `k`. -/
def findByKey (l : List MatchRecord) (k : String) : Option MatchRecord :=
  l.find? (fun m => dedupKey m == k)

/-! ### Provider payload parsers

`ESPNScraper._parse_live_soccer_match` (src/scrapers/espn_real.py:220-274) and
`FootballDataScraper._parse_live_match`
(src/scrapers/football_data_real.py:237-279) map provider JSON payloads to
match dicts.  JSON objects are modelled as structures whose `Option` fields
record key presence; a numeric score value is modelled as the already-parsed
integer. -/

/-- Python f-string/`str()` of a possibly-missing string: `None` prints as
`"None"`. -/
def pyStrOpt : Option String → String
  | some v => v
  | none => "None"

/-- Python f-string/`str()` of a possibly-missing integer. -/
def pyStrOptInt : Option Int → String
  | some v => toString v
  | none => "None"

/-- Python `s.replace(t, '')` for a single-character pattern `t`: removes
every occurrence of the character (the only form `_extract_soccer_minute`
uses). -/
def pyRemoveChar (c : Char) (s : String) : String :=
  ⟨s.data.filter (fun d => !(d == c))⟩

/-- Accumulator for splitting a character list on whitespace. -/
def wordsAux : List Char → List Char → List (List Char)
  | [], acc => if acc = [] then [] else [acc.reverse]
  | c :: cs, acc =>
    if c.isWhitespace then
      if acc = [] then wordsAux cs [] else acc.reverse :: wordsAux cs []
    else
      wordsAux cs (c :: acc)

/-- Python `str.split()` with no argument: split on whitespace runs,
discarding empty pieces. -/
def pySplitWhitespace (s : String) : List String :=
  (wordsAux s.data []).map (fun cs => ⟨cs⟩)

/-- Decimal digits to a number; `none` if a non-digit occurs. -/
def charsToNatAux : List Char → Nat → Option Nat
  | [], acc => some acc
  | c :: cs, acc =>
    if c.isDigit then charsToNatAux cs (acc * 10 + (c.toNat - 48)) else none

/-- Python `int(s)` on the strings reaching it in `_extract_soccer_minute`
(an optional leading minus followed by decimal digits); `none` models the
`ValueError` the surrounding bare `except` catches. -/
def pyInt (s : String) : Option Int :=
  match s.data with
  | [] => none
  | '-' :: cs =>
    if cs = [] then none else (charsToNatAux cs 0).map (fun n => -(n : Int))
  | cs => (charsToNatAux cs 0).map (fun n => (n : Int))

/-- The apostrophe character `"'"` tested for in `_extract_soccer_minute`. -/
def quoteChar : Char := Char.ofNat 39

/-- The `team` object of an ESPN competitor; keys `displayName` and `id`
(the latter is unread by the embedded parser and omitted). -/
structure ESPNTeamInfo where
  displayName : Option String := none
  deriving DecidableEq, Repr

/-- One entry of `competitions[0]['competitors']` in an ESPN event. -/
structure ESPNCompetitor where
  homeAway : Option String := none
  team : Option ESPNTeamInfo := none
  score : Option Int := none
  deriving DecidableEq, Repr

/-- One entry of `competitions` in an ESPN event (only `competitors` is read
by the live-soccer parser; `details` feeds the no-op
`_add_soccer_statistics`). -/
structure ESPNCompetition where
  competitors : List ESPNCompetitor := []
  deriving DecidableEq, Repr

/-- The `status['type']` object of an ESPN event. -/
structure ESPNStatusType where
  name : Option String := none
  description : Option String := none
  deriving DecidableEq, Repr

/-- The `status` object of an ESPN event. -/
structure ESPNStatus where
  type : Option ESPNStatusType := none
  displayClock : Option String := none
  deriving DecidableEq, Repr

/-- An ESPN scoreboard event, restricted to the keys the live-soccer parser
reads. -/
structure ESPNEvent where
  id : Option String := none
  competitions : List ESPNCompetition := []
  status : Option ESPNStatus := none
  date : Option String := none
  deriving DecidableEq, Repr

/-- `ESPNScraper._extract_soccer_minute` (src/scrapers/espn_real.py:374-383):
if the display clock contains an apostrophe, strip apostrophes and plus
signs and parse the first whitespace-token as an integer; any failure
(empty split, unparsable token) falls back to 0 through the bare `except`. -/
def extract_soccer_minute (status : Option ESPNStatus) : Int :=
  let clock := (status.bind ESPNStatus.displayClock).getD ""
  if clock ≠ "" ∧ containsSub quoteChar.toString clock = true then
    match pySplitWhitespace (pyRemoveChar '+' (pyRemoveChar quoteChar clock)) with
    | [] => 0
    | tok :: _ => (pyInt tok).getD 0
  else
    0

/-- The competitor-assignment loop of `_parse_live_soccer_match`
(src/scrapers/espn_real.py:233-241): a competitor whose `homeAway` equals
`'home'` overwrites the home slot, any other competitor overwrites the away
slot. -/
def assignCompetitors (competitors : List ESPNCompetitor) :
    Option ESPNCompetitor × Option ESPNCompetitor :=
  competitors.foldl
    (fun acc c =>
      if c.homeAway = some "home" then (some c, acc.2) else (acc.1, some c))
    (none, none)

/-- The empty competitor dict `{}`. -/
def emptyCompetitor : ESPNCompetitor := {}

/-- Python truthiness of the `home_team`/`away_team` loop variables in
`_parse_live_soccer_match` (line 243): `None` and the empty dict are falsy. -/
def competitorTruthy : Option ESPNCompetitor → Bool
  | none => false
  | some c => if c = emptyCompetitor then false else true

/-- `ESPNScraper._parse_live_soccer_match` (src/scrapers/espn_real.py:220-274).
`now` is the value of `datetime.now(tz=timezone.utc).isoformat()` written to
`scraped_at`.  The produced dict's `id`, `home_team_id` and `away_team_id`
keys are unread by the embedded pipeline and omitted; an absent `date` is
modelled as the empty string in `start_time`. -/
def parse_live_soccer_match (event : ESPNEvent) (league : String) (now : String) :
    Option MatchRecord :=
  match event.competitions with
  | [] => none
  | competition :: _ =>
    if competition.competitors.length ≠ 2 then none
    else
      let assigned := assignCompetitors competition.competitors
      if competitorTruthy assigned.1 = false ∨ competitorTruthy assigned.2 = false then none
      else
        match assigned.1, assigned.2 with
        | some home, some away =>
          some {
            match_id := "espn_" ++ pyStrOpt event.id
            home_team := (home.team.bind ESPNTeamInfo.displayName).getD "Unknown"
            away_team := (away.team.bind ESPNTeamInfo.displayName).getD "Unknown"
            home_score := some (home.score.getD 0)
            away_score := some (away.score.getD 0)
            minute := some (extract_soccer_minute event.status)
            status := ((event.status.bind ESPNStatus.type).bind
              ESPNStatusType.description).getD "Unknown"
            competition := league
            start_time := event.date.getD ""
            is_live := true
            scraped_at := now
            source := "espn_real"
            data_quality := "100_percent_real" }
        | _, _ => none

/-- A `homeTeam`/`awayTeam` object of a football-data.org match; keys `name`
and `id` (the latter is unread by the embedded pipeline and omitted). -/
structure FDTeam where
  name : Option String := none
  deriving DecidableEq, Repr

/-- A football-data.org match payload, restricted to the keys
`_parse_live_match` reads.  `fullTimeHome`/`fullTimeAway` model
`score['fullTime']['home']`/`['away']`: the outer `Option` is key presence
anywhere on the `score → fullTime → home` path (absent at any level means the
`.get(..., 0)` defaults apply), the inner `Option` distinguishes a JSON null
(`none`) from an integer.  The `odds` object only adds keys the embedded
pipeline never reads and is omitted. -/
structure FDMatchPayload where
  id : Option Int := none
  status : Option String := none
  homeTeam : Option FDTeam := none
  awayTeam : Option FDTeam := none
  fullTimeHome : Option (Option Int) := none
  fullTimeAway : Option (Option Int) := none
  utcDate : Option String := none
  deriving DecidableEq, Repr

/-- `score.get('fullTime', {}).get('home', 0)`
(src/scrapers/football_data_real.py:256-257): an absent key defaults to the
integer 0, a present JSON-null value stays `None`. -/
def fd_score_field : Option (Option Int) → Option Int
  | none => some 0
  | some v => v

/-- `FootballDataScraper._parse_live_match`
(src/scrapers/football_data_real.py:237-279).  `now` models
`datetime.now(tz=timezone.utc).isoformat()`; `minuteNow` models the
wall-clock-derived result of `_extract_minute`.  In the branch taken the
`status` value is exactly `'IN_PLAY'`; an absent `utcDate` is modelled as the
empty string in `start_time`. -/
def parse_live_match (m : FDMatchPayload) (competition : String) (now : String)
    (minuteNow : Int) : Option MatchRecord :=
  if m.status ≠ some "IN_PLAY" then none
  else
    some {
      match_id := "footballdata_" ++ pyStrOptInt m.id
      home_team := (m.homeTeam.bind FDTeam.name).getD "Unknown"
      away_team := (m.awayTeam.bind FDTeam.name).getD "Unknown"
      home_score := fd_score_field m.fullTimeHome
      away_score := fd_score_field m.fullTimeAway
      status := "IN_PLAY"
      competition := competition
      start_time := m.utcDate.getD ""
      is_live := true
      minute := some minuteNow
      scraped_at := now
      source := "football_data_real"
      data_quality := "100_percent_real" }

/-! ### Concrete records used by witnesses and counterexamples -/

/-- A live match as the ESPN client reports it (source ranked highest). -/
def espnFlamengo : MatchRecord :=
  { home_team := "Flamengo", away_team := "Palmeiras",
    home_score := some 1, away_score := some 0,
    start_time := "2024-05-01T20:00:00Z", scraped_at := "2024-05-01T20:30:00Z",
    source := "espn_real" }

/-- The same real-world match as the lower-ranked football-data client
reports it: same teams (different case), same calendar date, different
kickoff timestamp and a different away score. -/
def fdFlamengo : MatchRecord :=
  { home_team := "flamengo", away_team := "palmeiras",
    home_score := some 1, away_score := some 1,
    start_time := "2024-05-01T19:00:00Z", scraped_at := "2024-05-01T20:30:01Z",
    source := "football_data_real" }

/-- A placeholder-named record that passes every check except the
simulation denylist. -/
def testFC : MatchRecord :=
  { home_team := "Test FC", away_team := "Real Club",
    scraped_at := "2024-05-01T20:30:00Z", source := "espn_real" }

/-- A record whose team names have exactly two characters. -/
def shortNames : MatchRecord :=
  { home_team := "AB", away_team := "CD",
    scraped_at := "2024-05-01T20:30:00Z", source := "espn_real" }

/-- `espnFlamengo` with home and away swapped. -/
def swappedFlamengo : MatchRecord :=
  { home_team := "Palmeiras", away_team := "Flamengo",
    home_score := some 0, away_score := some 1,
    start_time := "2024-05-01T20:00:00Z", scraped_at := "2024-05-01T20:30:02Z",
    source := "api_football_real" }

/-- A record with accented team names. -/
def accentRec : MatchRecord :=
  { home_team := "São Paulo", away_team := "Grêmio",
    start_time := "2024-05-01T20:00:00Z", source := "espn_real" }

/-- The same teams with the diacritics stripped. -/
def plainRec : MatchRecord :=
  { home_team := "Sao Paulo", away_team := "Gremio",
    start_time := "2024-05-01T20:00:00Z", source := "football_data_real" }

/-- An ESPN live event whose competitors carry no `score` key. -/
def espnEventNoScore : ESPNEvent :=
  { id := some "401"
    competitions := [⟨[
      { homeAway := some "home", team := some ⟨some "Flamengo"⟩ },
      { homeAway := some "away", team := some ⟨some "Palmeiras"⟩ }]⟩]
    status := some { type := some ⟨some "STATUS_IN_PROGRESS", some "In Progress"⟩,
                     displayClock := some "45" }
    date := some "2024-05-01T20:00:00Z" }

/-- The same ESPN live event with both scores explicitly reported as 0. -/
def espnEventZeroScore : ESPNEvent :=
  { id := some "401"
    competitions := [⟨[
      { homeAway := some "home", team := some ⟨some "Flamengo"⟩, score := some 0 },
      { homeAway := some "away", team := some ⟨some "Palmeiras"⟩, score := some 0 }]⟩]
    status := some { type := some ⟨some "STATUS_IN_PROGRESS", some "In Progress"⟩,
                     displayClock := some "45" }
    date := some "2024-05-01T20:00:00Z" }

/-- A football-data live payload whose `score` object carries no `fullTime`
entry. -/
def fdNoScore : FDMatchPayload :=
  { id := some 77, status := some "IN_PLAY",
    homeTeam := some ⟨some "Gremio"⟩, awayTeam := some ⟨some "Santos"⟩,
    utcDate := some "2024-05-01T19:00:00Z" }

/-! ### Lemmas about deduplication -/

/-- A key occurs among the keys of `removeDuplicatesAux l seen` iff it occurs
among the keys of `l` and was not already seen. -/
theorem removeDuplicatesAux_key_mem (l : List MatchRecord) (seen : List String) (k : String) :
    k ∈ (removeDuplicatesAux l seen).map dedupKey ↔ k ∈ l.map dedupKey ∧ k ∉ seen := by
  induction l generalizing seen with
  | nil => simp [removeDuplicatesAux]
  | cons m ms ih =>
    simp only [removeDuplicatesAux]
    by_cases hm : dedupKey m ∈ seen
    · rw [if_pos hm, ih]
      simp only [List.map_cons, List.mem_cons]
      constructor
      · rintro ⟨hk, hks⟩
        exact ⟨Or.inr hk, hks⟩
      · rintro ⟨heq | hk, hks⟩
        · exact absurd (heq ▸ hm) hks
        · exact ⟨hk, hks⟩
    · rw [if_neg hm]
      simp only [List.map_cons, List.mem_cons, ih, List.mem_cons]
      constructor
      · rintro (heq | ⟨hk, hks⟩)
        · subst heq
          exact ⟨Or.inl rfl, hm⟩
        · exact ⟨Or.inr hk, fun hs => hks (Or.inr hs)⟩
      · rintro ⟨heq | hk, hks⟩
        · exact Or.inl heq
        · by_cases hkm : k = dedupKey m
          · exact Or.inl hkm
          · refine Or.inr ⟨hk, fun hs => ?_⟩
            rcases hs with hs | hs
            · exact hkm hs
            · exact hks hs

/-- `removeDuplicatesAux` returns a subsequence of its input. -/
theorem removeDuplicatesAux_sublist (l : List MatchRecord) (seen : List String) :
    List.Sublist (removeDuplicatesAux l seen) l := by
  induction l generalizing seen with
  | nil => simp [removeDuplicatesAux]
  | cons m ms ih =>
    simp only [removeDuplicatesAux]
    by_cases hm : dedupKey m ∈ seen
    · rw [if_pos hm]
      exact List.Sublist.cons m (ih seen)
    · rw [if_neg hm]
      exact List.Sublist.cons₂ m (ih _)

/-- For an unseen key, the first record with that key surviving
`removeDuplicatesAux` is the first record with that key in the input. -/
theorem removeDuplicatesAux_find_eq (l : List MatchRecord) (seen : List String) (k : String)
    (hk : k ∉ seen) :
    (removeDuplicatesAux l seen).find? (fun m => dedupKey m == k)
      = l.find? (fun m => dedupKey m == k) := by
  induction l generalizing seen with
  | nil => rfl
  | cons m ms ih =>
    simp only [removeDuplicatesAux]
    by_cases hm : dedupKey m ∈ seen
    · have hne : (dedupKey m == k) = false := by
        simp only [beq_eq_false_iff_ne, ne_eq]
        intro h
        exact hk (h ▸ hm)
      rw [if_pos hm, List.find?_cons, hne]
      exact ih seen hk
    · rw [if_neg hm]
      by_cases hkm : (dedupKey m == k) = true
      · simp [List.find?_cons, hkm]
      · have hkm' : (dedupKey m == k) = false := by
          simpa using hkm
        simp only [List.find?_cons, hkm']
        refine ih _ fun hmem => ?_
        rcases List.mem_cons.mp hmem with hs | hs
        · exact hkm (by simp [hs])
        · exact hk hs

/-- The surviving keys of `removeDuplicatesAux` contain no duplicates. -/
theorem removeDuplicatesAux_keys_nodup (l : List MatchRecord) (seen : List String) :
    ((removeDuplicatesAux l seen).map dedupKey).Nodup := by
  induction l generalizing seen with
  | nil => simp [removeDuplicatesAux]
  | cons m ms ih =>
    simp only [removeDuplicatesAux]
    by_cases hm : dedupKey m ∈ seen
    · rw [if_pos hm]
      exact ih seen
    · rw [if_neg hm]
      simp only [List.map_cons, List.nodup_cons]
      refine ⟨fun hmem => ?_, ih _⟩
      have h := (removeDuplicatesAux_key_mem ms _ (dedupKey m)).mp hmem
      exact h.2 (List.mem_cons_self _ _)

/-- Key coverage of `remove_duplicates`: exactly the input keys survive. -/
theorem remove_duplicates_key_mem (ms : List MatchRecord) (k : String) :
    k ∈ (remove_duplicates ms).map dedupKey ↔ k ∈ ms.map dedupKey := by
  rw [remove_duplicates, removeDuplicatesAux_key_mem]
  simp

/-- `remove_duplicates` returns a subsequence of its input. -/
theorem remove_duplicates_sublist (ms : List MatchRecord) :
    List.Sublist (remove_duplicates ms) ms :=
  removeDuplicatesAux_sublist ms []

/-- The survivor for each key is the first input record with that key. -/
theorem remove_duplicates_find_eq (ms : List MatchRecord) (k : String) :
    (remove_duplicates ms).find? (fun m => dedupKey m == k)
      = ms.find? (fun m => dedupKey m == k) :=
  removeDuplicatesAux_find_eq ms [] k (List.not_mem_nil k)

/-- No two survivors of `remove_duplicates` share a key. -/
theorem remove_duplicates_keys_nodup (ms : List MatchRecord) :
    ((remove_duplicates ms).map dedupKey).Nodup :=
  removeDuplicatesAux_keys_nodup ms []

/-- Skipping a run of records without key `k` does not change the first
record with key `k`. -/
theorem find_key_append (pre rest : List MatchRecord) (k : String)
    (h : k ∉ pre.map dedupKey) :
    (pre ++ rest).find? (fun m => dedupKey m == k)
      = rest.find? (fun m => dedupKey m == k) := by
  induction pre with
  | nil => rfl
  | cons p ps ih =>
    have hne : (dedupKey p == k) = false := by
      simp only [beq_eq_false_iff_ne, ne_eq]
      intro he
      exact h (by simp [he])
    simp only [List.cons_append, List.find?_cons, hne]
    exact ih fun hk => h (List.mem_cons_of_mem _ hk)

/-! ### Lemmas about validation -/

/-- The quality score never exceeds 4. -/
theorem quality_score_le_four (m : MatchRecord) : quality_score m ≤ 4 := by
  unfold quality_score
  split_ifs <;> omega

/-- The quality score reaches 4 exactly when all four checks pass. -/
theorem quality_score_four_iff (m : MatchRecord) :
    4 ≤ quality_score m ↔
      (m.home_team ≠ "" ∧ m.away_team ≠ "") ∧ m.scraped_at ≠ "" ∧ m.source ≠ ""
        ∧ is_simulation m = false := by
  unfold quality_score
  split_ifs with h1 h2 h3 h4 <;> simp_all

/-- Closed form of the validator loop: starting from accumulator `(vs, st)`,
it appends the accepted records in input order and bumps the three counters
by the sizes of the three classes. -/
theorem foldl_validateStep_eq (ms : List MatchRecord) (vs : List MatchRecord)
    (st : ValidationStats) :
    ms.foldl validateStep (vs, st)
      = (vs ++ ms.filter isAccepted,
         ⟨st.total, st.real + (ms.filter isAccepted).length,
          st.suspicious + (ms.filter isSuspicious).length,
          st.invalid + (ms.filter isInvalid).length⟩) := by
  induction ms generalizing vs st with
  | nil => simp
  | cons m ms ih =>
    simp only [List.foldl_cons]
    by_cases h4 : 4 ≤ quality_score m
    · have hstep : validateStep (vs, st) m = (vs ++ [m], { st with real := st.real + 1 }) := by
        simp [validateStep, h4]
      have ha : isAccepted m = true := by simp [isAccepted, h4]
      have hs : isSuspicious m = false := by simp [isSuspicious, h4]
      have hi : isInvalid m = false := by
        simp only [isInvalid, decide_eq_false_iff_not]
        omega
      rw [hstep, ih]
      simp [ha, hs, hi, List.filter_cons, List.append_assoc, Prod.ext_iff,
        ValidationStats.mk.injEq]
      omega
    · by_cases h2 : 2 ≤ quality_score m
      · have hstep : validateStep (vs, st) m
            = (vs, { st with suspicious := st.suspicious + 1 }) := by
          simp [validateStep, h4, h2]
        have ha : isAccepted m = false := by
          simp only [isAccepted, decide_eq_false_iff_not]
          omega
        have hs : isSuspicious m = true := by simp [isSuspicious, h4, h2]
        have hi : isInvalid m = false := by
          simp only [isInvalid, decide_eq_false_iff_not]
          omega
        rw [hstep, ih]
        simp [ha, hs, hi, List.filter_cons, Prod.ext_iff, ValidationStats.mk.injEq]
        omega
      · have hstep : validateStep (vs, st) m
            = (vs, { st with invalid := st.invalid + 1 }) := by
          simp [validateStep, h4, h2]
        have ha : isAccepted m = false := by
          simp only [isAccepted, decide_eq_false_iff_not]
          omega
        have hs : isSuspicious m = false := by
          simp [isSuspicious, h2]
        have hi : isInvalid m = true := by
          simp only [isInvalid, decide_eq_true_eq]
          omega
        rw [hstep, ih]
        simp [ha, hs, hi, List.filter_cons, Prod.ext_iff, ValidationStats.mk.injEq]
        omega

/-- Closed form of `validate_real_data`: the accepted list is the in-order
filter by `isAccepted`, and the statistics count the three classes. -/
theorem validate_real_data_eq (ms : List MatchRecord) :
    validate_real_data ms
      = (ms.filter isAccepted,
         ⟨ms.length, (ms.filter isAccepted).length, (ms.filter isSuspicious).length,
          (ms.filter isInvalid).length⟩) := by
  unfold validate_real_data
  rw [foldl_validateStep_eq]
  simp

/-- Every record is counted in exactly one of the three classes. -/
theorem filter_partition_length (ms : List MatchRecord) :
    (ms.filter isAccepted).length + (ms.filter isSuspicious).length
      + (ms.filter isInvalid).length = ms.length := by
  induction ms with
  | nil => rfl
  | cons m ms ih =>
    by_cases h4 : 4 ≤ quality_score m
    · have ha : isAccepted m = true := by simp [isAccepted, h4]
      have hs : isSuspicious m = false := by simp [isSuspicious, h4]
      have hi : isInvalid m = false := by
        simp only [isInvalid, decide_eq_false_iff_not]
        omega
      simp [List.filter_cons, ha, hs, hi]
      omega
    · by_cases h2 : 2 ≤ quality_score m
      · have ha : isAccepted m = false := by
          simp only [isAccepted, decide_eq_false_iff_not]
          omega
        have hs : isSuspicious m = true := by simp [isSuspicious, h4, h2]
        have hi : isInvalid m = false := by
          simp only [isInvalid, decide_eq_false_iff_not]
          omega
        simp [List.filter_cons, ha, hs, hi]
        omega
      · have ha : isAccepted m = false := by
          simp only [isAccepted, decide_eq_false_iff_not]
          omega
        have hs : isSuspicious m = false := by simp [isSuspicious, h2]
        have hi : isInvalid m = true := by
          simp only [isInvalid, decide_eq_true_eq]
          omega
        simp [List.filter_cons, ha, hs, hi]
        omega

/-! ### Claim theorems -/

/-- C1 counterexample: deduplication is not order-independent.  The inputs
`[espnFlamengo, fdFlamengo]` and `[fdFlamengo, espnFlamengo]` are
permutations of each other, yet `_remove_duplicates` produces different
output lists, because the first-encountered record per key survives. -/
theorem dedup_not_order_independent_cex :
    List.Perm [espnFlamengo, fdFlamengo] [fdFlamengo, espnFlamengo] ∧
    remove_duplicates [espnFlamengo, fdFlamengo]
      ≠ remove_duplicates [fdFlamengo, espnFlamengo] := by
  constructor
  · exact List.Perm.swap fdFlamengo espnFlamengo []
  · decide

/-- C1 (amended): deduplication is a pure function of its input list
(purity and run-twice determinism are immediate in the functional model),
but the output list is not invariant under input permutation: only the
list of surviving identity keys is permutation-invariant, the surviving
records and their order depend on input order. -/
theorem dedup_keys_perm_invariant (l₁ l₂ : List MatchRecord) (h : List.Perm l₁ l₂) :
    List.Perm ((remove_duplicates l₁).map dedupKey)
      ((remove_duplicates l₂).map dedupKey) := by
  refine (List.perm_ext_iff_of_nodup (remove_duplicates_keys_nodup l₁)
    (remove_duplicates_keys_nodup l₂)).mpr fun k => ?_
  rw [remove_duplicates_key_mem, remove_duplicates_key_mem]
  exact (h.map dedupKey).mem_iff

/-- Witness for C1 (amended) at a concrete permutation pair. -/
theorem dedup_keys_perm_invariant_witness :
    List.Perm ((remove_duplicates [espnFlamengo, fdFlamengo]).map dedupKey)
      ((remove_duplicates [fdFlamengo, espnFlamengo]).map dedupKey) :=
  dedup_keys_perm_invariant _ _ (List.Perm.swap fdFlamengo espnFlamengo [])

/-- C2 counterexample: there is no source-priority rule in the merge.  ESPN
outranks football-data in the configured source order and both report the
same identity key with different non-null away scores, yet with the
football-data record first in the input the merge output is the
football-data record with its own score, not ESPN's. -/
theorem dedup_no_priority_cex :
    dedupKey fdFlamengo = dedupKey espnFlamengo ∧
    espnFlamengo.source = "espn_real" ∧
    fdFlamengo.source = "football_data_real" ∧
    espnFlamengo.away_score = some 0 ∧
    fdFlamengo.away_score = some 1 ∧
    remove_duplicates [fdFlamengo, espnFlamengo] = [fdFlamengo] := by
  decide

/-- C2 (amended): the survivor for an identity key is the first record with
that key in the aggregated input order (sources are concatenated in the
fixed order ESPN, Football-Data, API-Football, LiveScore), and it survives
unchanged — its score is its own; a later record with the same key, such as
one from a lower-priority source, is dropped entirely and no contributing
sources are recorded. -/
theorem dedup_first_position_wins (pre mid post : List MatchRecord) (a b : MatchRecord)
    (hkey : dedupKey b = dedupKey a) (hpre : dedupKey a ∉ pre.map dedupKey) :
    findByKey (remove_duplicates (pre ++ a :: (mid ++ b :: post))) (dedupKey a) = some a ∧
    (∀ m ∈ remove_duplicates (pre ++ a :: (mid ++ b :: post)),
      dedupKey m = dedupKey a → m = a) ∧
    (b ∈ remove_duplicates (pre ++ a :: (mid ++ b :: post)) → b = a) := by
  have hfind : findByKey (remove_duplicates (pre ++ a :: (mid ++ b :: post))) (dedupKey a)
      = some a := by
    rw [findByKey, remove_duplicates_find_eq, find_key_append _ _ _ hpre]
    simp [List.find?_cons]
  have ha : a ∈ remove_duplicates (pre ++ a :: (mid ++ b :: post)) :=
    List.mem_of_find?_eq_some hfind
  have hinj : ∀ m ∈ remove_duplicates (pre ++ a :: (mid ++ b :: post)),
      dedupKey m = dedupKey a → m = a := fun m hm hkm =>
    List.inj_on_of_nodup_map (remove_duplicates_keys_nodup _) hm ha hkm
  exact ⟨hfind, hinj, fun hb => hinj b hb hkey⟩

/-- Witness for C2 (amended): with the ESPN record first and the
football-data duplicate later, the survivor for the shared key is exactly
the ESPN record. -/
theorem dedup_first_position_wins_witness :
    findByKey (remove_duplicates ([] ++ espnFlamengo :: ([] ++ fdFlamengo :: [])))
      (dedupKey espnFlamengo) = some espnFlamengo :=
  (dedup_first_position_wins [] [] [] espnFlamengo fdFlamengo (by decide) (by decide)).1

/-- C3 counterexample: the identity key is built from the names in home-away
order with no sorting and no diacritic stripping.  `swappedFlamengo` is
`espnFlamengo` with home and away exchanged on the same calendar date, yet
the keys differ; `accentRec` and `plainRec` differ only in accents, yet the
keys differ. -/
theorem dedupKey_not_normalized_cex :
    swappedFlamengo.home_team = espnFlamengo.away_team ∧
    swappedFlamengo.away_team = espnFlamengo.home_team ∧
    pySlice 10 swappedFlamengo.start_time = pySlice 10 espnFlamengo.start_time ∧
    dedupKey swappedFlamengo ≠ dedupKey espnFlamengo ∧
    dedupKey accentRec ≠ dedupKey plainRec := by
  decide

/-- C3 (amended): the identity key is the lower-cased, end-trimmed home name,
then the lower-cased, end-trimmed away name — in home-away order, not
sorted, with no diacritic or punctuation stripping and no inner whitespace
collapse — then the first 10 characters of `start_time`, joined by `"_"`;
the key depends on exactly those three components. -/
theorem dedupKey_congruence :
    (∀ m₁ m₂ : MatchRecord,
      pyStrip (pyLower m₁.home_team) = pyStrip (pyLower m₂.home_team) →
      pyStrip (pyLower m₁.away_team) = pyStrip (pyLower m₂.away_team) →
      pySlice 10 m₁.start_time = pySlice 10 m₂.start_time →
      dedupKey m₁ = dedupKey m₂) ∧
    dedupKey espnFlamengo = "flamengo_palmeiras_2024-05-01" := by
  constructor
  · intro m₁ m₂ h1 h2 h3
    unfold dedupKey
    rw [h1, h2, h3]
  · decide

/-- Witness for C3 (amended): the two same-match records notated differently
by ESPN and football-data receive the same key. -/
theorem dedupKey_congruence_witness :
    dedupKey espnFlamengo = dedupKey fdFlamengo :=
  dedupKey_congruence.1 espnFlamengo fdFlamengo (by decide) (by decide) (by decide)

/-- C4: per-source failure isolation.  Every non-list outcome (timeout of
the 15-second deadline, raised exception, non-list result) becomes the empty
list and is never propagated; replacing every failing source by a source
returning the empty list leaves the aggregate output unchanged; and every
record returned by a succeeded source keeps its identity key represented in
the aggregate output. -/
theorem safe_call_failure_isolation :
    (∀ o : FetchOutcome, (∀ ms, o ≠ FetchOutcome.ok ms) → safe_scraper_call o = []) ∧
    (∀ e f a l : FetchOutcome,
      get_all_live_matches_real e f a l
        = get_all_live_matches_real (FetchOutcome.ok (safe_scraper_call e))
            (FetchOutcome.ok (safe_scraper_call f))
            (FetchOutcome.ok (safe_scraper_call a))
            (FetchOutcome.ok (safe_scraper_call l))) ∧
    (∀ e f a l : FetchOutcome, ∀ m : MatchRecord,
      m ∈ safe_scraper_call e ++ safe_scraper_call f ++ safe_scraper_call a
          ++ safe_scraper_call l →
      dedupKey m ∈ (get_all_live_matches_real e f a l).map dedupKey) := by
  refine ⟨?_, ?_, ?_⟩
  · intro o h
    cases o with
    | ok ms => exact absurd rfl (h ms)
    | timeout => rfl
    | raised msg => rfl
    | nonList => rfl
  · intro e f a l
    rfl
  · intro e f a l m hm
    rw [get_all_live_matches_real, remove_duplicates_key_mem]
    exact List.mem_map_of_mem dedupKey hm

/-- Witness for C4: with one succeeding source and three failing ones
(timeout, exception, non-list), the failures each yield `[]` and the
successful record's key is in the aggregate output. -/
theorem safe_call_failure_isolation_witness :
    safe_scraper_call FetchOutcome.timeout = [] ∧
    dedupKey espnFlamengo ∈
      (get_all_live_matches_real (FetchOutcome.ok [espnFlamengo]) FetchOutcome.timeout
        (FetchOutcome.raised "boom") FetchOutcome.nonList).map dedupKey :=
  ⟨safe_call_failure_isolation.1 FetchOutcome.timeout (fun ms h => FetchOutcome.noConfusion h),
   safe_call_failure_isolation.2.2 (FetchOutcome.ok [espnFlamengo]) FetchOutcome.timeout
     (FetchOutcome.raised "boom") FetchOutcome.nonList espnFlamengo (by decide)⟩

/-- C5 counterexample: no minimum name length is enforced.  `shortNames` has
two-character team names (claim check 1 would fail), yet its quality score
is 4 and it is accepted. -/
theorem quality_no_min_length_cex :
    (pyStrip (pyLower shortNames.home_team)).length = 2 ∧
    (pyStrip (pyLower shortNames.away_team)).length = 2 ∧
    quality_score shortNames = 4 ∧
    (validate_real_data [shortNames]).1 = [shortNames] := by
  decide

/-- C5 (amended): the quality score is an integer 0-4, one point per passed
check, where check 1 requires only that both team names be non-empty (no
minimum length); the score reaches 4 exactly when all four checks pass, and
a record is accepted (kept in the validated list, in input order) iff its
score is at least 4. -/
theorem quality_score_accept_characterization :
    (∀ m : MatchRecord, quality_score m ≤ 4) ∧
    (∀ m : MatchRecord,
      4 ≤ quality_score m ↔
        (m.home_team ≠ "" ∧ m.away_team ≠ "") ∧ m.scraped_at ≠ "" ∧ m.source ≠ ""
          ∧ is_simulation m = false) ∧
    (∀ ms : List MatchRecord, (validate_real_data ms).1 = ms.filter isAccepted) := by
  refine ⟨quality_score_le_four, quality_score_four_iff, fun ms => ?_⟩
  rw [validate_real_data_eq]

/-- Witness for C5 (amended) at a concrete input list. -/
theorem quality_score_accept_characterization_witness :
    (validate_real_data [shortNames]).1 = List.filter isAccepted [shortNames] :=
  quality_score_accept_characterization.2.2 [shortNames]

/-- C6: any record with a denylist token (`test`, `fake`, `demo`, `mock`,
`sample`, `dummy`, `example`) occurring case-insensitively in either team
name has quality score below 4 and never appears in the accepted list. -/
theorem denylist_rejection (m : MatchRecord) (h : containsDenyToken m = true) :
    quality_score m < 4 ∧ ∀ ms, m ∉ (validate_real_data ms).1 := by
  have hsim : is_simulation m = true := by
    unfold containsDenyToken at h
    unfold is_simulation
    simp only [Bool.or_eq_true]
    exact Or.inl h
  have hq : quality_score m < 4 := by
    have h4 : ¬(4 ≤ quality_score m) := by
      rw [quality_score_four_iff]
      rintro ⟨-, -, -, hfalse⟩
      rw [hsim] at hfalse
      cases hfalse
    omega
  refine ⟨hq, fun ms hmem => ?_⟩
  rw [validate_real_data_eq] at hmem
  have hacc := List.of_mem_filter hmem
  simp only [isAccepted, decide_eq_true_eq] at hacc
  omega

/-- Witness for C6: `"Test FC"` vs `"Real Club"` scores below 4 and is
rejected even though the other three checks pass. -/
theorem denylist_rejection_witness :
    quality_score testFC < 4 ∧ testFC ∉ (validate_real_data [testFC]).1 :=
  ⟨(denylist_rejection testFC (by decide)).1,
   (denylist_rejection testFC (by decide)).2 [testFC]⟩

/-- C7 counterexample: rejected records are not retained.  On the input
`[espnFlamengo, testFC]` the validator returns only the accepted list
`[espnFlamengo]` and bare counters, and the rejected `testFC` appears
nowhere in the output — the output does not contain every input record. -/
theorem validator_discards_rejected_cex :
    quality_score testFC < 4 ∧
    validate_real_data [espnFlamengo, testFC] = ([espnFlamengo], ⟨2, 1, 1, 0⟩) ∧
    testFC ∉ (validate_real_data [espnFlamengo, testFC]).1 := by
  decide

/-- C7 (amended): a record failing a check is excluded from the accepted
list and only counted — as `suspicious` (score 2-3) or `invalid` (score
0-1) — in the statistics returned alongside; the record itself is
discarded.  Every input record is accounted for by the counters: `total` is
the input length, `real` is the accepted-list length, and the three classes
partition the input. -/
theorem validator_stats_account_all (ms : List MatchRecord) :
    (validate_real_data ms).2.total = ms.length ∧
    (validate_real_data ms).2.real = ((validate_real_data ms).1).length ∧
    (validate_real_data ms).2.real + (validate_real_data ms).2.suspicious
      + (validate_real_data ms).2.invalid = ms.length := by
  rw [validate_real_data_eq]
  exact ⟨rfl, rfl, filter_partition_length ms⟩

/-- C8 counterexample: the live parsers default a missing score to 0.  The
ESPN live event without `score` keys parses to the same record as the one
whose scores are explicitly 0, with `home_score = some 0`; the
football-data payload without a `fullTime` entry also parses to
`home_score = some 0`. -/
theorem live_parsers_default_missing_score_cex :
    parse_live_soccer_match espnEventNoScore "bra.1" "2024-05-01T20:30:00Z"
      = parse_live_soccer_match espnEventZeroScore "bra.1" "2024-05-01T20:30:00Z" ∧
    (parse_live_soccer_match espnEventNoScore "bra.1" "2024-05-01T20:30:00Z").map
        MatchRecord.home_score = some (some 0) ∧
    fdNoScore.fullTimeHome = none ∧
    (parse_live_match fdNoScore "BSA" "2024-05-01T20:30:00Z" 10).map
        MatchRecord.home_score = some (some 0) := by
  decide

/-- C8 (amended): in the live-match parsers an absent score is defaulted to
0, indistinguishable from an explicitly reported 0: the ESPN live parser
always emits `score.getD 0` (never an absent score), and the football-data
live parser emits 0 whenever the `fullTime` path is absent from the
payload. -/
theorem live_parsers_score_defaulting :
    (∀ (home away : ESPNCompetitor) (evId date : Option String)
        (st : Option ESPNStatus) (league now : String),
      home.homeAway = some "home" → away.homeAway ≠ some "home" →
      home ≠ emptyCompetitor → away ≠ emptyCompetitor →
      (parse_live_soccer_match ⟨evId, [⟨[home, away]⟩], st, date⟩ league now).map
          (fun r => (r.home_score, r.away_score))
        = some (some (home.score.getD 0), some (away.score.getD 0))) ∧
    (∀ (m : FDMatchPayload) (competition now : String) (minuteNow : Int),
      m.status = some "IN_PLAY" → m.fullTimeHome = none →
      (parse_live_match m competition now minuteNow).map MatchRecord.home_score
        = some (some 0)) := by
  constructor
  · intro home away evId date st league now hh ha hne1 hne2
    simp [parse_live_soccer_match, assignCompetitors, competitorTruthy, hh, ha, hne1, hne2]
  · intro m competition now minuteNow hst hnone
    simp [parse_live_match, hst, hnone, fd_score_field]

/-- Witness for C8 (amended) at the concrete football-data payload without
a `fullTime` entry. -/
theorem live_parsers_score_defaulting_witness :
    (parse_live_match fdNoScore "BSA" "2024-05-01T20:30:00Z" 10).map MatchRecord.home_score
      = some (some 0) :=
  live_parsers_score_defaulting.2 fdNoScore "BSA" "2024-05-01T20:30:00Z" 10 rfl rfl

/-- C9: identity-key uniqueness.  No two records in the deduplicated output
share an identity key, and every output record is one of the input records
(records are never merged across keys — or at all). -/
theorem dedup_identity_key_unique (ms : List MatchRecord) :
    ((remove_duplicates ms).map dedupKey).Nodup ∧
    ∀ m, m ∈ remove_duplicates ms → m ∈ ms :=
  ⟨remove_duplicates_keys_nodup ms,
   fun _ hm => (remove_duplicates_sublist ms).subset hm⟩

/-- Witness for C9 at a concrete duplicate-bearing input. -/
theorem dedup_identity_key_unique_witness :
    espnFlamengo ∈ [espnFlamengo, fdFlamengo] :=
  (dedup_identity_key_unique [espnFlamengo, fdFlamengo]).2 espnFlamengo (by decide)

/-- C10: deduplication returns the subsequence of the input keeping exactly
the first-encountered record per key: the output is a sublist of the input
(relative order preserved), the surviving record for every key is the first
input record with that key (so survival is decided by input position alone),
and exactly the input keys survive. -/
theorem dedup_keeps_first_occurrence (ms : List MatchRecord) :
    List.Sublist (remove_duplicates ms) ms ∧
    (∀ k, (remove_duplicates ms).find? (fun m => dedupKey m == k)
        = ms.find? (fun m => dedupKey m == k)) ∧
    (∀ k, k ∈ (remove_duplicates ms).map dedupKey ↔ k ∈ ms.map dedupKey) :=
  ⟨remove_duplicates_sublist ms, remove_duplicates_find_eq ms,
   remove_duplicates_key_mem ms⟩

end FootballApi
